import Mathlib

/-!
Shallow embedding of the Lumagen integration driver's core session,
event-normalisation and command-translation logic, together with proofs
of the specification's claims about it.

The definitions mirror, function by function, the Python source:
`device.py` (class `LumagenDevice`: the session, its notification
handlers and its command operations), `remote.py` (the SEND_CMD branch
of `LumagenRemote.command`), `const.py` (`SimpleCommands` and its
`display_name`), `sensor.py` (`LumagenSensor.filter_changed_attributes`)
and `registry.py` (the controller registry).
-/

namespace Lumagen

/-- `ucapi.StatusCodes` as used by the integration. -/
inductive StatusCodes
  | OK
  | BAD_REQUEST
  | NOT_FOUND
  | NOT_IMPLEMENTED
  | SERVICE_UNAVAILABLE
deriving DecidableEq, Repr

/-- `ucapi.media_player.States` (overall entity state). -/
inductive UcState
  | OFF
  | ON
  | STANDBY
  | UNAVAILABLE
  | UNKNOWN
deriving DecidableEq, Repr

/-- `PowerStateEnum` from `device.py`: values "unknown" / "Active" / "Standby". -/
inductive PowerStateEnum
  | UNKNOWN
  | ACTIVE
  | STANDBY
deriving DecidableEq, Repr

/-- `PowerStateEnum(value)` constructor lookup by enum value: succeeds exactly on
the three member values, case sensitively; any other value raises `ValueError`
(modelled as `none`). -/
def parsePowerState (value : String) : Option PowerStateEnum :=
  if value = "unknown" then some .UNKNOWN
  else if value = "Active" then some .ACTIVE
  else if value = "Standby" then some .STANDBY
  else none

/-- `pylumagen.models.constants.ConnectionStatus` (the members the handler inspects). -/
inductive ConnectionStatus
  | DISCONNECTED
  | CONNECTED
  | CONNECTING
deriving DecidableEq, Repr

/-- Value payload of an emitted attribute update. -/
inductive AttrValue
  | state (s : UcState)
  | str (s : String)
  | strList (l : List String)
deriving DecidableEq, Repr

/-- One emission on `self.events` (the AsyncIOEventEmitter), or one direct
transport call made from a handler. `update entity attr v` models
`events.emit(Events.UPDATE.name, entity_id, {attr: value})`;
`lifecycle name` models `events.emit(Events.<name>.name, device_id)`;
`transport op` models a direct call on `self.device.executor`. -/
inductive Emit
  | update (entity attr : String) (v : AttrValue)
  | lifecycle (name : String)
  | transport (op : String)
deriving DecidableEq, Repr

/-- The mutable fields of `LumagenDevice` (device.py) that the handlers and
command operations read and write. -/
structure Session where
  device_id : String
  connected : Bool
  is_alive : Bool
  attr_state : UcState
  current_status : PowerStateEnum
  active_source : Option String
  source_list : List String
deriving DecidableEq, Repr

/-- `LumagenDevice._emit_update`: entity id is `f"{prefix}.{self.device_id}"`. -/
def emit_update (s : Session) (pfix attr : String) (v : AttrValue) : Emit :=
  .update (pfix ++ "." ++ s.device_id) attr v

/-- Outcome of dynamically invoking one executor method
(`getattr(self.device.executor, command)` in `_execute_command`):
the attribute is absent or not callable, the call raises `ValueError`,
or the call completes. -/
inductive ExecOutcome
  | missing
  | raises
  | succeeds
deriving DecidableEq, Repr

/-- The executor, abstracted as the behaviour of each named method. -/
def Executor : Type := String → ExecOutcome

/-- Parameters passed along with a command invocation (the shapes actually
used by this driver: no parameters / the fixed test-message kwargs /
a positional source index). -/
inductive Params
  | noparams
  | message
  | index (i : Nat)
deriving DecidableEq, Repr

/-- `LumagenDevice._execute_command`: missing or non-callable method gives
NOT_IMPLEMENTED without invoking anything; a `ValueError` from the invoked
method gives BAD_REQUEST; otherwise OK. The returned list records the
executor invocations made (the protocol operations sent). -/
def execute_command (exec : Executor) (command : String) (parms : Params) :
    StatusCodes × List (String × Params) :=
  match exec command with
  | .missing => (.NOT_IMPLEMENTED, [])
  | .raises => (.BAD_REQUEST, [(command, parms)])
  | .succeeds => (.OK, [(command, parms)])

/-- `LumagenDevice.send_command`: fails fast with SERVICE_UNAVAILABLE when
`self._connected` is false, otherwise delegates to `_execute_command`. -/
def send_command (exec : Executor) (s : Session) (command : String) (parms : Params) :
    StatusCodes × List (String × Params) :=
  if s.connected = false then (.SERVICE_UNAVAILABLE, [])
  else execute_command exec command parms

/-- `LumagenDevice.is_on`: cached power status equals ACTIVE. -/
def is_on (s : Session) : Bool :=
  s.current_status = .ACTIVE

/-- `LumagenDevice.power_on`: skips the send when already on, otherwise sends
"power_on" via `send_command`; always returns OK (the send's status is
discarded). -/
def power_on (exec : Executor) (s : Session) : StatusCodes × List (String × Params) :=
  if is_on s then (.OK, [])
  else (.OK, (send_command exec s "power_on" .noparams).2)

/-- `LumagenDevice.power_off`: sends "standby" via `send_command` only when on;
always returns OK (the send's status is discarded). -/
def power_off (exec : Executor) (s : Session) : StatusCodes × List (String × Params) :=
  if is_on s then (.OK, (send_command exec s "standby" .noparams).2)
  else (.OK, [])

/-- `LumagenDevice.select_source`: rejects an empty or unknown source name with
BAD_REQUEST; otherwise resolves the list index and invokes
`self.device.executor.input(index)` directly (no connection check; the
surrounding `except Exception` turns a raising call into BAD_REQUEST,
modelled by `input_raises`). The session is returned unchanged: the method
never assigns `_active_source` or any other field. -/
def select_source (input_raises : Bool) (s : Session) (source : String) :
    Session × StatusCodes × List (String × Params) :=
  if source = "" ∨ source ∉ s.source_list then (s, .BAD_REQUEST, [])
  else
    let index := s.source_list.indexOf source
    if input_raises then (s, .BAD_REQUEST, [("input", .index index)])
    else (s, .OK, [("input", .index index)])

/-- Digit accumulator over the characters of a string: `none` as soon as a
non-digit appears. -/
def digitsCore : List Char → Nat → Option Nat
  | [], acc => some acc
  | c :: cs, acc =>
      if c.isDigit then digitsCore cs (acc * 10 + (c.toNat - '0'.toNat)) else none

/-- Parse a non-empty all-digit character list to a natural number
(the semantics of `String.toNat?`, written structurally). -/
def parseDigits : List Char → Option Nat
  | [] => none
  | l => digitsCore l 0

/-- The Python built-in `int(value)` on a string is external to this
repository, like the transport executor: it accepts an optional sign,
surrounding whitespace, underscore digit separators and any Unicode decimal
digits, and raises on everything else. `_handle_physical_input_selected` is
therefore modelled relative to an arbitrary behaviour
`pyInt : String → Option Int` of that builtin (`none` standing for the
`ValueError`/`TypeError` it raises), so its theorems hold for every behaviour,
in particular the real one.

`pyIntDigits` is one concrete such behaviour, used to instantiate theorems at
specific inputs: it maps a plain ASCII digit string to its value and anything
else to `none`, which agrees with the builtin on every input it is applied to
below ("3", "9", "abc"). -/
def pyIntDigits (value : String) : Option Int :=
  (parseDigits value.data).map (fun n => ((n : Int)))

/-- `LumagenDevice._handle_device_status` (device.py): a parseable value sets
the cached power status and maps it to the overall state (ACTIVE to ON,
STANDBY to STANDBY, otherwise UNKNOWN), then emits that state to the
media-player and remote entities; on `ValueError` the cached power status and
overall state are set to UNKNOWN and nothing is emitted. -/
def handle_device_status (s : Session) (value : String) : Session × List Emit :=
  match parsePowerState value with
  | some ps =>
      let st :=
        if ps = .ACTIVE then UcState.ON
        else if ps = .STANDBY then UcState.STANDBY
        else UcState.UNKNOWN
      ({ s with current_status := ps, attr_state := st },
       [emit_update s "media_player" "state" (.state st),
        emit_update s "remote" "state" (.state st)])
  | none =>
      ({ s with current_status := .UNKNOWN, attr_state := .UNKNOWN }, [])

/-- `LumagenDevice._handle_is_alive`: marks the device alive. -/
def handle_is_alive (s : Session) : Session × List Emit :=
  ({ s with is_alive := true }, [])

/-- `LumagenDevice._handle_physical_input_selected` (device.py), parameterized
by the behaviour `pyInt` of the external builtin `int()`: converts the 1-based
reported index to 0-based; in-bounds indices with a truthy (non-empty) label
set the active source and emit a media-player source update; the handler then
always emits the pass-through sensor value `"Input: {value}"`. A value `int()`
rejects is caught (`ValueError`/`TypeError`) and nothing is emitted. -/
def handle_physical_input_selected (pyInt : String → Option Int) (s : Session)
    (value : String) : Session × List Emit :=
  match pyInt value with
  | none => (s, [])
  | some v =>
      let index : Int := v - 1
      let sensor := emit_update s "physical_input_selected" "value"
        (.str ("Input: " ++ value))
      if 0 ≤ index ∧ index < (s.source_list.length : Int) then
        -- in bounds: source_name is the list element; `if source_name:`
        -- is false exactly when the label is the empty string
        let n := s.source_list.getD index.toNat ""
        if n ≠ "" then
          ({ s with active_source := some n },
           [emit_update s "media_player" "source" (.str n), sensor])
        else (s, [sensor])
      else
        -- out of bounds: source_name is None, only the warning fires
        (s, [sensor])

/-- `LumagenDevice._handle_connection_state` (device.py): DISCONNECTED clears
the connected and liveness flags, sets the cached overall state to UNAVAILABLE
and emits the DISCONNECTED lifecycle event; CONNECTED sets the connected flag,
emits the CONNECTED lifecycle event and then calls
`self.device.executor.get_labels(...)` on the transport. No other field is
touched. -/
def handle_connection_state (s : Session) (st : Option ConnectionStatus) :
    Session × List Emit :=
  match st with
  | some .DISCONNECTED =>
      ({ s with connected := false, is_alive := false, attr_state := .UNAVAILABLE },
       [.lifecycle "DISCONNECTED"])
  | some .CONNECTED =>
      ({ s with connected := true },
       [.lifecycle "CONNECTED", .transport "get_labels"])
  | _ => (s, [])

/-- `const.SimpleCommands`: the statically enumerated command descriptors, as
(member name, enum value) pairs in declaration order. -/
def simple_commands : List (String × String) :=
  [("NUM_0", "0"), ("NUM_1", "1"), ("NUM_2", "2"), ("NUM_3", "3"),
   ("NUM_4", "4"), ("NUM_5", "5"), ("NUM_6", "6"), ("NUM_7", "7"),
   ("NUM_8", "8"), ("NUM_9", "9"), ("NUM_10", "10"),
   ("ASPECT_1_85", "source_aspect_1_85"), ("ASPECT_1_90", "source_aspect_1_90"),
   ("ASPECT_16_X_9", "source_aspect_16x9"), ("ASPECT_2_00", "source_aspect_2_00"),
   ("ASPECT_2_10", "source_aspect_2_10"), ("ASPECT_2_20", "source_aspect_2_20"),
   ("ASPECT_2_35", "source_aspect_2_35"), ("ASPECT_2_40", "source_aspect_2_40"),
   ("ASPECT_2_55", "source_aspect_2_55"), ("ASPECT_2_76", "source_aspect_2_76"),
   ("ASPECT_4_X_3", "source_aspect_4x3"),
   ("AAD", "auto_aspect_disable"), ("AAE", "auto_aspect_enable"),
   ("ALT", "alt"), ("CLEAR", "clear"), ("DOWN", "down"), ("EXIT", "exit"),
   ("HDR", "hdr"), ("HELP", "help"), ("INPUT", "input"),
   ("LBOX", "source_aspect_lbox"), ("LEFT", "left"),
   ("MEMA", "mema"), ("MEMB", "memb"), ("MEMC", "memc"), ("MEMD", "memd"),
   ("MENU", "menu"), ("MSG_OFF", "clear_message"), ("MSG_ON", "display_message"),
   ("NLS", "nls"), ("OFF", "power_off"), ("OK", "ok"), ("ON", "power_on"),
   ("PATTERN", "pattern"), ("PREV", "prev"), ("RIGHT", "right"),
   ("SAVE", "save"), ("STBY", "standby"), ("TOGGLE", "toggle"),
   ("UP", "up"), ("ZONE", "zone")]

/-- The canonical token set: the `SimpleCommands` enum values, i.e. the key set
of `cmds._value2member_map_` that the SEND_CMD branch tests membership in. -/
def simple_command_values : List String :=
  simple_commands.map (fun p => p.2)

/-- Character-list prefix test, a structural rendering of what
`String.startsWith` computes. -/
def isPrefixChars : List Char → List Char → Bool
  | [], _ => true
  | _ :: _, [] => false
  | a :: as, b :: bs => a = b && isPrefixChars as bs

/-- `String.startsWith`, written structurally over the character lists. -/
def strStartsWith (s p : String) : Bool :=
  isPrefixChars p.data s.data

/-- `String.drop`, written structurally over the character list. -/
def strDrop (s : String) (n : Nat) : String :=
  ⟨s.data.drop n⟩

/-- `name.replace "_" "."` for the single-character pattern actually used:
a character-wise map. -/
def replaceUnderscores (s : String) : String :=
  ⟨s.data.map (fun c => if c = '_' then '.' else c)⟩

/-- `SimpleCommands.display_name` (const.py), a function of the member name:
`NUM_*` names drop the leading four characters, the two `x`-style aspect names
are special-cased, other `ASPECT_*` names drop the leading seven characters
and turn underscores into dots, everything else is the member name itself. -/
def display_name (name : String) : String :=
  if strStartsWith name "NUM_" then strDrop name 4
  else if name = "ASPECT_4_X_3" then "4x3"
  else if name = "ASPECT_16_X_9" then "16x9"
  else if strStartsWith name "ASPECT_" then replaceUnderscores (strDrop name 7)
  else name

/-- `RemoteDef.simple_commands` (const.py): the display names of every
`SimpleCommands` member, i.e. the simple-command set the remote entity
advertises. -/
def remote_simple_commands : List String :=
  simple_commands.map (fun p => display_name p.1)

/-- Python `str.isdigit` restricted to ASCII: non-empty and all digits. -/
def str_isdigit (value : String) : Bool :=
  !value.data.isEmpty && value.data.all Char.isDigit

/-- The SEND_CMD branch of `LumagenRemote.command` (remote.py): a missing or
empty simple command is BAD_REQUEST; a command outside the canonical token set
(`cmds._value2member_map_`) is NOT_IMPLEMENTED; digits 0-10 are renamed to
`send_<digit>`; "display_message" gains the fixed test-message kwargs; "input"
synthesizes the index of the current source, failing with BAD_REQUEST when the
current source is absent from the source list (the `ValueError` branch);
everything else is forwarded verbatim to `send_command`. -/
def remote_send_cmd (exec : Executor) (s : Session) (simple_cmd : Option String) :
    StatusCodes × List (String × Params) :=
  match simple_cmd with
  | none => (.BAD_REQUEST, [])
  | some c =>
    if c = "" then (.BAD_REQUEST, [])
    else if c ∈ simple_command_values then
      if str_isdigit c && decide ((parseDigits c.data).getD 0 ≤ 10) then
        send_command exec s ("send_" ++ c) .noparams
      else if c = "display_message" then
        send_command exec s c .message
      else if c = "input" then
        match s.active_source with
        | some src =>
            if src ∈ s.source_list then
              send_command exec s c (.index (s.source_list.indexOf src))
            else (.BAD_REQUEST, [])
        | none => (.BAD_REQUEST, [])
      else send_command exec s c .noparams
    else (.NOT_IMPLEMENTED, [])

/-- `ucapi.sensor.States` (the members this driver uses). -/
inductive SensorState
  | UNKNOWN
  | ON
  | UNAVAILABLE
deriving DecidableEq, Repr

/-- The STATE and VALUE attribute entries of a sensor attribute dictionary;
`none` models an absent key. -/
structure SensorAttrs where
  state? : Option SensorState
  value? : Option String
deriving DecidableEq, Repr

/-- `LumagenSensor.filter_changed_attributes` (sensor.py): for each of STATE
and VALUE, the pair is kept only when the key is present both in the update and
in the stored attributes and the two values differ; afterwards, if the kept
delta sets STATE to UNKNOWN, VALUE is forced to "none". -/
def filter_changed_attributes (stored update : SensorAttrs) : SensorAttrs :=
  let st : Option SensorState :=
    match update.state?, stored.state? with
    | some u, some s0 => if u ≠ s0 then some u else none
    | _, _ => none
  let vl : Option String :=
    match update.value?, stored.value? with
    | some u, some v0 => if u ≠ v0 then some u else none
    | _, _ => none
  let vl := if st = some .UNKNOWN then some "none" else vl
  ⟨st, vl⟩

/-- The module-level registry `_configured_lumagens` (registry.py): a Python
dict, modelled as an association list in insertion order (new keys are
appended; `register_controller` never overwrites, so keys stay unique). -/
def getControllerList {Ctrl : Type} (r : List (String × Ctrl)) (id : String) : Option Ctrl :=
  match r with
  | [] => none
  | (k, v) :: rest => if k = id then some v else getControllerList rest id

/-- `device_id in _configured_lumagens`: key membership. -/
def containsId {Ctrl : Type} (r : List (String × Ctrl)) (id : String) : Bool :=
  match r with
  | [] => false
  | (k, _) :: rest => if k = id then true else containsId rest id

/-- `register_controller` (registry.py): inserts only when the device id is not
already a key; otherwise the registry is left untouched. -/
def register_controller {Ctrl : Type} (r : List (String × Ctrl)) (id : String) (c : Ctrl) :
    List (String × Ctrl) :=
  if containsId r id then r else r ++ [(id, c)]

/-- `unregister_controller` (registry.py): `dict.pop(device_id, None)` removes
the entry for the key if present (keys are unique, so filtering is the same). -/
def unregister_controller {Ctrl : Type} (r : List (String × Ctrl)) (id : String) :
    List (String × Ctrl) :=
  r.filter (fun p => decide (p.1 ≠ id))

/-- `clear_controllers` (registry.py): empties the registry. -/
def clear_controllers {Ctrl : Type} : List (String × Ctrl) := []

/-- One registry mutation, for reasoning about call sequences. -/
inductive RegOp (Ctrl : Type)
  | register (id : String) (c : Ctrl)
  | unregister (id : String)
  | clear
deriving DecidableEq, Repr

/-- Apply one registry call. -/
def apply_op {Ctrl : Type} (r : List (String × Ctrl)) : RegOp Ctrl → List (String × Ctrl)
  | .register id c => register_controller r id c
  | .unregister id => unregister_controller r id
  | .clear => clear_controllers

/-- Run a sequence of registry calls starting from the empty registry. -/
def run_ops {Ctrl : Type} (ops : List (RegOp Ctrl)) : List (String × Ctrl) :=
  ops.foldl apply_op []

/-- Whether a call removes the binding for `id`: an unregister of that id, or a
clear. -/
def removes_id {Ctrl : Type} (op : RegOp Ctrl) (id : String) : Bool :=
  match op with
  | .unregister i => decide (i = id)
  | .clear => true
  | .register _ _ => false

/-- The suffix of the call sequence after the last call that removed `id`
(the whole sequence when no call removed it). -/
def since_last_removal {Ctrl : Type} (ops : List (RegOp Ctrl)) (id : String) :
    List (RegOp Ctrl) :=
  ((ops.reverse.takeWhile (fun op => ! removes_id op id)).reverse)

/-- The controller of the first register call for `id` in a call sequence,
if any. -/
def first_registered {Ctrl : Type} (ops : List (RegOp Ctrl)) (id : String) : Option Ctrl :=
  (ops.filterMap (fun op =>
    match op with
    | .register i c => if i = id then some c else none
    | _ => none)).head?

/-- The claim's reading of the registry: the first controller registered for
`id` since the last unregister-of-`id` or clear. -/
def spec_get {Ctrl : Type} (ops : List (RegOp Ctrl)) (id : String) : Option Ctrl :=
  first_registered (since_last_removal ops id) id

/-- Claim C1, corrected. As stated the claim is false (see
`c1_counterexample`): only `send_command` fails fast with SERVICE_UNAVAILABLE
when the session is not connected. `power_on` and `power_off` do send nothing
to the transport in that case (their inner `send_command` fails fast) but
return OK, discarding the error; and `select_source` performs no connection
check at all, attempting the index-based select even while disconnected. -/
theorem c1_connection_gating (exec : Executor) (b : Bool) (s : Session)
    (cmd : String) (ps : Params) (h : s.connected = false) :
    send_command exec s cmd ps = (.SERVICE_UNAVAILABLE, []) ∧
    power_on exec s = (.OK, []) ∧
    power_off exec s = (.OK, []) ∧
    (∀ src, src ≠ "" → src ∈ s.source_list →
      (select_source b s src).2.2 = [("input", .index (s.source_list.indexOf src))]) := by
  refine ⟨?_, ?_, ?_, ?_⟩
  · simp [send_command, h]
  · by_cases hon : is_on s <;> simp [power_on, send_command, hon, h]
  · by_cases hon : is_on s <;> simp [power_off, send_command, hon, h]
  · intro src h1 h2
    rw [select_source]
    simp only [h1, h2, false_or, not_true_eq_false, if_false]
    cases b <;> rfl

/-- Claim C1 counterexample: on a disconnected session whose cached power
state is not Active, `power_on` returns OK, not the SERVICE_UNAVAILABLE the
claim requires. -/
theorem c1_counterexample :
    (Session.connected ⟨"dev", false, false, .OFF, .UNKNOWN, none, ["HDMI1"]⟩ = false) ∧
    (power_on (fun _ => .succeeds)
        ⟨"dev", false, false, .OFF, .UNKNOWN, none, ["HDMI1"]⟩).1 = StatusCodes.OK ∧
    StatusCodes.OK ≠ StatusCodes.SERVICE_UNAVAILABLE := by
  refine ⟨rfl, rfl, by decide⟩

/-- Witness for `c1_connection_gating` at a concrete disconnected session. -/
theorem c1_witness :
    send_command (fun _ => .succeeds)
        ⟨"dev", false, false, .OFF, .UNKNOWN, none, ["HDMI1"]⟩ "menu" .noparams
      = (.SERVICE_UNAVAILABLE, []) ∧
    power_on (fun _ => .succeeds)
        ⟨"dev", false, false, .OFF, .UNKNOWN, none, ["HDMI1"]⟩ = (.OK, []) ∧
    (select_source false
        ⟨"dev", false, false, .OFF, .UNKNOWN, none, ["HDMI1"]⟩ "HDMI1").2.2
      = [("input", .index 0)] := by
  have h := c1_connection_gating (fun _ => .succeeds) false
    ⟨"dev", false, false, .OFF, .UNKNOWN, none, ["HDMI1"]⟩ "menu" .noparams rfl
  exact ⟨h.1, h.2.1, h.2.2.2 "HDMI1" (by decide) (by decide)⟩

/-- Claim C3: `select_source` with an empty name or a name outside the current
source list returns BAD_REQUEST and changes nothing (in particular the active
source); with a member name it resolves that name's list index and sends the
index-based select operation to the device. -/
theorem c3_select_source (b : Bool) (s : Session) :
    (∀ src, src = "" ∨ src ∉ s.source_list →
       select_source b s src = (s, .BAD_REQUEST, []) ∧
       (select_source b s src).1.active_source = s.active_source) ∧
    (∀ src, src ≠ "" → src ∈ s.source_list →
       (select_source b s src).1 = s ∧
       (select_source b s src).2.2
         = [("input", .index (s.source_list.indexOf src))]) := by
  constructor
  · intro src hsrc
    have : select_source b s src = (s, .BAD_REQUEST, []) := by
      rw [select_source, if_pos hsrc]
    exact ⟨this, by rw [this]⟩
  · intro src h1 h2
    rw [select_source]
    simp only [h1, h2, false_or, not_true_eq_false, if_false]
    cases b <;> exact ⟨rfl, rfl⟩

/-- Witness for `c3_select_source` at a concrete session, exercising the
rejecting case (name not in the list), the empty name, and the accepting
case. -/
theorem c3_witness :
    select_source false ⟨"dev", true, true, .ON, .ACTIVE, some "B", ["A", "B", "C"]⟩ "Z"
      = (⟨"dev", true, true, .ON, .ACTIVE, some "B", ["A", "B", "C"]⟩, .BAD_REQUEST, []) ∧
    select_source false ⟨"dev", true, true, .ON, .ACTIVE, some "B", ["A", "B", "C"]⟩ ""
      = (⟨"dev", true, true, .ON, .ACTIVE, some "B", ["A", "B", "C"]⟩, .BAD_REQUEST, []) ∧
    (select_source false ⟨"dev", true, true, .ON, .ACTIVE, some "B", ["A", "B", "C"]⟩ "C").2.2
      = [("input", .index 2)] := by
  have h := c3_select_source false ⟨"dev", true, true, .ON, .ACTIVE, some "B", ["A", "B", "C"]⟩
  refine ⟨(h.1 "Z" (Or.inr (by decide))).1, (h.1 "" (Or.inl rfl)).1, ?_⟩
  have h3 := (h.2 "C" (by decide) (by decide)).2
  simpa using h3

/-- Claim C6: `power_on` while the cached power state is already Active sends
no protocol operation and returns OK; `power_off` while the cached power state
is not Active likewise sends nothing and returns OK. -/
theorem c6_power_idempotence (exec : Executor) (s : Session) :
    (s.current_status = .ACTIVE → power_on exec s = (.OK, [])) ∧
    (s.current_status ≠ .ACTIVE → power_off exec s = (.OK, [])) := by
  constructor
  · intro h; simp [power_on, is_on, h]
  · intro h; simp [power_off, is_on, h]

/-- Witness for `c6_power_idempotence` on concrete Active and Standby
sessions. -/
theorem c6_witness :
    power_on (fun _ => .succeeds) ⟨"dev", true, true, .ON, .ACTIVE, none, []⟩ = (.OK, []) ∧
    power_off (fun _ => .succeeds) ⟨"dev", true, true, .STANDBY, .STANDBY, none, []⟩
      = (.OK, []) := by
  exact ⟨(c6_power_idempotence (fun _ => .succeeds)
            ⟨"dev", true, true, .ON, .ACTIVE, none, []⟩).1 rfl,
         (c6_power_idempotence (fun _ => .succeeds)
            ⟨"dev", true, true, .STANDBY, .STANDBY, none, []⟩).2 (by decide)⟩

/-- Claim C8: `power_on` and `power_off` return OK for every session state and
every behaviour of the underlying executor (method missing, raising, or
succeeding, connected or not): the status of the inner `send_command` is
discarded. -/
theorem c8_power_always_ok (exec : Executor) (s : Session) :
    (power_on exec s).1 = .OK ∧ (power_off exec s).1 = .OK := by
  by_cases h : is_on s <;> simp [power_on, power_off, h]

/-- Claim C2, corrected. As stated the claim is false (see
`c2_counterexample`): for every Disconnected connection-state notification the
handler clears the connected flag, clears the liveness flag, and sets the
cached overall attribute state to Unavailable, emitting only the DISCONNECTED
lifecycle event; it does not reset the cached power state (which keeps its
previous value) and it emits no attribute delta. -/
theorem c2_disconnect_handler (s : Session) :
    (handle_connection_state s (some .DISCONNECTED)).1.connected = false ∧
    (handle_connection_state s (some .DISCONNECTED)).1.is_alive = false ∧
    (handle_connection_state s (some .DISCONNECTED)).1.attr_state = .UNAVAILABLE ∧
    (handle_connection_state s (some .DISCONNECTED)).1.current_status = s.current_status ∧
    (handle_connection_state s (some .DISCONNECTED)).1.active_source = s.active_source ∧
    (handle_connection_state s (some .DISCONNECTED)).2 = [.lifecycle "DISCONNECTED"] := by
  exact ⟨rfl, rfl, rfl, rfl, rfl, rfl⟩

/-- Claim C2 counterexample: a Disconnected notification on a session whose
cached power state is Active leaves that power state Active (not Unknown), and
the only emission is the DISCONNECTED lifecycle event — no attribute delta at
all, in particular no "unavailable" one. -/
theorem c2_counterexample :
    (handle_connection_state ⟨"dev", true, true, .ON, .ACTIVE, some "A", ["A"]⟩
        (some .DISCONNECTED)).1.current_status = .ACTIVE ∧
    PowerStateEnum.ACTIVE ≠ PowerStateEnum.UNKNOWN ∧
    (handle_connection_state ⟨"dev", true, true, .ON, .ACTIVE, some "A", ["A"]⟩
        (some .DISCONNECTED)).2 = [Emit.lifecycle "DISCONNECTED"] := by
  exact ⟨rfl, by decide, rfl⟩

/-- Claim C7, corrected. As stated the claim is false (see
`c7_counterexample`): a parseable device-status value sets the cached power
state and publishes the mapped overall state (Active to On, Standby to
Standby, otherwise Unknown) to the media-player and remote entities, and an
unparseable value sets the cached power state and overall state to Unknown
without raising — but the unparseable branch publishes nothing. -/
theorem c7_device_status (s : Session) (value : String) :
    (∀ ps, parsePowerState value = some ps →
       (handle_device_status s value).1.current_status = ps ∧
       (handle_device_status s value).1.attr_state
         = (if ps = .ACTIVE then UcState.ON
            else if ps = .STANDBY then UcState.STANDBY else UcState.UNKNOWN) ∧
       (handle_device_status s value).2
         = [emit_update s "media_player" "state"
              (.state (if ps = .ACTIVE then UcState.ON
                       else if ps = .STANDBY then UcState.STANDBY else UcState.UNKNOWN)),
            emit_update s "remote" "state"
              (.state (if ps = .ACTIVE then UcState.ON
                       else if ps = .STANDBY then UcState.STANDBY else UcState.UNKNOWN))]) ∧
    (parsePowerState value = none →
       (handle_device_status s value).1.current_status = .UNKNOWN ∧
       (handle_device_status s value).1.attr_state = .UNKNOWN ∧
       (handle_device_status s value).2 = []) := by
  constructor
  · intro ps h
    rw [handle_device_status, h]
    exact ⟨rfl, rfl, rfl⟩
  · intro h
    rw [handle_device_status, h]
    exact ⟨rfl, rfl, rfl⟩

/-- Claim C7 counterexample: the unparseable value "bogus" sets the cached
power state to Unknown but publishes nothing at all — contradicting the
claim's "publishes the Unknown overall state". -/
theorem c7_counterexample :
    (handle_device_status ⟨"dev", true, true, .ON, .ACTIVE, none, []⟩ "bogus").1.current_status
      = PowerStateEnum.UNKNOWN ∧
    (handle_device_status ⟨"dev", true, true, .ON, .ACTIVE, none, []⟩ "bogus").2 = [] := by
  exact ⟨rfl, rfl⟩

/-- Witness for `c7_device_status` at concrete parseable ("Active") and
unparseable ("bogus") values. -/
theorem c7_witness :
    (handle_device_status ⟨"dev", true, true, .OFF, .STANDBY, none, []⟩ "Active").2
      = [Emit.update "media_player.dev" "state" (.state .ON),
         Emit.update "remote.dev" "state" (.state .ON)] ∧
    (handle_device_status ⟨"dev", true, true, .OFF, .STANDBY, none, []⟩ "bogus").1.current_status
      = PowerStateEnum.UNKNOWN := by
  have h1 := (c7_device_status ⟨"dev", true, true, .OFF, .STANDBY, none, []⟩ "Active").1
    .ACTIVE (by decide)
  have h2 := (c7_device_status ⟨"dev", true, true, .OFF, .STANDBY, none, []⟩ "bogus").2
    (by decide)
  exact ⟨h1.2.2, h2.1⟩

/-- Claim C4, corrected. As stated the claim is false (see
`c4_counterexample`): the physical-input handler never raises and never
indexes out of bounds, and a numeric value v (one the builtin `int()`
accepts) with 1 ≤ v ≤ len(sourceList) emits exactly one source delta carrying
sourceList[v-1] when that label is non-empty (plus the pass-through sensor
delta "Input: v"; a falsy empty label emits no source delta). A non-numeric
value (one `int()` rejects) emits nothing, but an out-of-range numeric value
still emits the pass-through sensor delta — not "no delta" as claimed. The
theorem is quantified over every behaviour `pyInt` of the external builtin,
so it covers the real one. -/
theorem c4_physical_input (pyInt : String → Option Int) (s : Session) (value : String) :
    (pyInt value = none → handle_physical_input_selected pyInt s value = (s, [])) ∧
    (∀ v : Int, pyInt value = some v →
       ¬(1 ≤ v ∧ v ≤ (s.source_list.length : Int)) →
       handle_physical_input_selected pyInt s value
         = (s, [emit_update s "physical_input_selected" "value"
                  (.str ("Input: " ++ value))])) ∧
    (∀ v : Int, pyInt value = some v →
       1 ≤ v → v ≤ (s.source_list.length : Int) →
       s.source_list.getD (v - 1).toNat "" ≠ "" →
       handle_physical_input_selected pyInt s value
         = ({ s with active_source := some (s.source_list.getD (v - 1).toNat "") },
            [emit_update s "media_player" "source"
               (.str (s.source_list.getD (v - 1).toNat "")),
             emit_update s "physical_input_selected" "value"
               (.str ("Input: " ++ value))])) ∧
    (∀ v : Int, pyInt value = some v →
       1 ≤ v → v ≤ (s.source_list.length : Int) →
       s.source_list.getD (v - 1).toNat "" = "" →
       handle_physical_input_selected pyInt s value
         = (s, [emit_update s "physical_input_selected" "value"
                  (.str ("Input: " ++ value))])) := by
  refine ⟨?_, ?_, ?_, ?_⟩
  · intro h
    rw [handle_physical_input_selected, h]
  · intro v hv hrange
    rw [handle_physical_input_selected, hv]
    have : ¬(0 ≤ v - 1 ∧ v - 1 < (s.source_list.length : Int)) := by omega
    simp only [this, if_false]
  · intro v hv h1 h2 hne
    rw [handle_physical_input_selected, hv]
    have hb : 0 ≤ v - 1 ∧ v - 1 < (s.source_list.length : Int) := by omega
    dsimp only
    rw [if_pos hb, if_pos hne]
  · intro v hv h1 h2 heq
    rw [handle_physical_input_selected, hv]
    have hb : 0 ≤ v - 1 ∧ v - 1 < (s.source_list.length : Int) := by omega
    dsimp only
    rw [if_pos hb, if_neg (not_not_intro heq)]

/-- Claim C4 counterexample: value "9" (which `int()` parses to 9, as
`pyIntDigits` does) with a source list of length 5 emits one delta (the
pass-through sensor delta "Input: 9"), contradicting the claim's "yields no
delta" for out-of-range values. -/
theorem c4_counterexample :
    pyIntDigits "9" = some 9 ∧
    (handle_physical_input_selected pyIntDigits
        ⟨"dev", true, true, .ON, .ACTIVE, none, ["A", "B", "C", "D", "E"]⟩ "9").2
      = [Emit.update "physical_input_selected.dev" "value" (.str "Input: 9")] ∧
    [Emit.update "physical_input_selected.dev" "value" (.str "Input: 9")]
      ≠ ([] : List Emit) := by
  exact ⟨rfl, rfl, by decide⟩

/-- Witness for `c4_physical_input`: the spec's own example — value "3" with a
source list of length 5 yields the source delta carrying the element at index
2 — and the non-numeric case, both under the concrete builtin behaviour
`pyIntDigits`, which agrees with `int()` at "3" and "abc". -/
theorem c4_witness :
    handle_physical_input_selected pyIntDigits
        ⟨"dev", true, true, .ON, .ACTIVE, none, ["A", "B", "C", "D", "E"]⟩ "3"
      = (⟨"dev", true, true, .ON, .ACTIVE, some "C", ["A", "B", "C", "D", "E"]⟩,
         [Emit.update "media_player.dev" "source" (.str "C"),
          Emit.update "physical_input_selected.dev" "value" (.str "Input: 3")]) ∧
    handle_physical_input_selected pyIntDigits
        ⟨"dev", true, true, .ON, .ACTIVE, none, ["A", "B", "C", "D", "E"]⟩ "abc"
      = (⟨"dev", true, true, .ON, .ACTIVE, none, ["A", "B", "C", "D", "E"]⟩, []) := by
  have h := c4_physical_input pyIntDigits
    ⟨"dev", true, true, .ON, .ACTIVE, none, ["A", "B", "C", "D", "E"]⟩ "3"
  have h3 := h.2.2.1 3 (by decide) (by decide) (by decide) (by decide)
  have habc := (c4_physical_input pyIntDigits
    ⟨"dev", true, true, .ON, .ACTIVE, none, ["A", "B", "C", "D", "E"]⟩ "abc").1 (by decide)
  exact ⟨by simpa using h3, habc⟩

/-- Claim C5: the code contradicts both the claim and its own advertised
command set. "1.85" is the display name of `SimpleCommands.ASPECT_1_85` and is
advertised in `RemoteDef.simple_commands`, yet the SEND_CMD branch resolves
only canonical enum values: "1.85" fails with NOT_IMPLEMENTED and sends
nothing, while "source_aspect_1_85" resolves and sends — there is no
display-name fallback in the resolution at all. -/
theorem c5_display_name_not_resolved :
    display_name "ASPECT_1_85" = "1.85" ∧
    "1.85" ∈ remote_simple_commands ∧
    remote_send_cmd (fun _ => .succeeds)
        ⟨"dev", true, true, .ON, .ACTIVE, none, []⟩ (some "1.85")
      = (.NOT_IMPLEMENTED, []) ∧
    remote_send_cmd (fun _ => .succeeds)
        ⟨"dev", true, true, .ON, .ACTIVE, none, []⟩ (some "source_aspect_1_85")
      = (.OK, [("source_aspect_1_85", .noparams)]) ∧
    (StatusCodes.NOT_IMPLEMENTED, ([] : List (String × Params)))
      ≠ ((.OK, [("source_aspect_1_85", .noparams)]) :
          StatusCodes × List (String × Params)) := by
  refine ⟨by decide, by decide, by decide, by decide, by decide⟩

/-- Claim C9: the sensor's attribute filter returns only pairs whose new value
differs from the currently stored one — a STATE or VALUE entry appears in the
delta only if the update carries it and it differs from the stored entry — it
returns all such changed pairs, and whenever the delta sets STATE to UNKNOWN
it forces VALUE to "none", even when the update carried no or an unchanged
value. -/
theorem c9_filter_changed (stored update : SensorAttrs) :
    (∀ st, (filter_changed_attributes stored update).state? = some st →
        update.state? = some st ∧ ∃ s0, stored.state? = some s0 ∧ st ≠ s0) ∧
    (∀ v, (filter_changed_attributes stored update).value? = some v →
        (update.value? = some v ∧ ∃ v0, stored.value? = some v0 ∧ v ≠ v0) ∨
        ((filter_changed_attributes stored update).state? = some .UNKNOWN ∧ v = "none")) ∧
    ((filter_changed_attributes stored update).state? = some .UNKNOWN →
        (filter_changed_attributes stored update).value? = some "none") ∧
    (∀ st s0, update.state? = some st → stored.state? = some s0 → st ≠ s0 →
        (filter_changed_attributes stored update).state? = some st) ∧
    (∀ v v0, update.value? = some v → stored.value? = some v0 → v ≠ v0 →
        (filter_changed_attributes stored update).state? ≠ some .UNKNOWN →
        (filter_changed_attributes stored update).value? = some v) := by
  obtain ⟨us, uv⟩ := update
  obtain ⟨ss, sv⟩ := stored
  rcases us with _ | us <;> rcases ss with _ | ss <;>
    rcases uv with _ | uv <;> rcases sv with _ | sv <;>
      simp only [filter_changed_attributes] <;> split_ifs <;> simp_all

/-- Witness for `c9_filter_changed`: a concrete update whose state changes to
UNKNOWN while carrying no value entry still produces the forced VALUE
"none". -/
theorem c9_witness :
    (filter_changed_attributes ⟨some .ON, some "x"⟩ ⟨some .UNKNOWN, none⟩).state?
      = some SensorState.UNKNOWN ∧
    (filter_changed_attributes ⟨some .ON, some "x"⟩ ⟨some .UNKNOWN, none⟩).value?
      = some "none" := by
  have h := c9_filter_changed ⟨some .ON, some "x"⟩ ⟨some .UNKNOWN, none⟩
  have hst := h.2.2.2.1 .UNKNOWN .ON rfl rfl (by decide)
  exact ⟨hst, h.2.2.1 hst⟩

/-- Lookup distributes over registry concatenation. -/
theorem getControllerList_append {Ctrl : Type} (r1 r2 : List (String × Ctrl)) (id : String) :
    getControllerList (r1 ++ r2) id
      = match getControllerList r1 id with
        | some v => some v
        | none => getControllerList r2 id := by
  induction r1 with
  | nil => simp [getControllerList]
  | cons p rest ih =>
      by_cases h : p.1 = id <;> simp [getControllerList, h, ih]

/-- Unregistering one id removes its binding and no other. -/
theorem getControllerList_unregister {Ctrl : Type} (r : List (String × Ctrl)) (i id : String) :
    getControllerList (unregister_controller r i) id
      = if i = id then none else getControllerList r id := by
  induction r with
  | nil => simp [unregister_controller, getControllerList]
  | cons p rest ih =>
      unfold unregister_controller at ih ⊢
      by_cases hpi : p.1 = i
      · rw [List.filter_cons, if_neg (by simp [hpi])]
        rw [ih]
        by_cases hiid : i = id
        · simp [hiid]
        · have hpid : ¬ p.1 = id := by rw [hpi]; exact hiid
          simp [getControllerList, hpid, hiid]
      · rw [List.filter_cons, if_pos (by simp [hpi])]
        by_cases hpid : p.1 = id
        · have hiid : ¬ i = id := fun h => hpi (h ▸ hpid)
          simp [getControllerList, hpid, hiid]
        · simpa [getControllerList, hpid, ne_eq, decide_not] using ih

/-- Key membership agrees with lookup success. -/
theorem containsId_isSome {Ctrl : Type} (r : List (String × Ctrl)) (id : String) :
    containsId r id = (getControllerList r id).isSome := by
  induction r with
  | nil => rfl
  | cons p rest ih => by_cases h : p.1 = id <;> simp [containsId, getControllerList, h, ih]

/-- `head?` of a concatenation, in match form. -/
theorem head?_append_match {α : Type} (a b : List α) :
    (a ++ b).head? = match a.head? with
                     | some x => some x
                     | none => b.head? := by
  cases a <;> simp

/-- Appending one call to a sequence either resets the suffix since the last
removal (when the call removes `id`) or extends it. -/
theorem since_last_removal_append {Ctrl : Type} (l : List (RegOp Ctrl)) (op : RegOp Ctrl)
    (id : String) :
    since_last_removal (l ++ [op]) id
      = if removes_id op id then [] else since_last_removal l id ++ [op] := by
  unfold since_last_removal
  rw [List.reverse_append]
  by_cases h : removes_id op id <;> simp [List.takeWhile, h]

/-- The first registration in a sequence extended by one call. -/
theorem first_registered_append {Ctrl : Type} (l : List (RegOp Ctrl)) (op : RegOp Ctrl)
    (id : String) :
    first_registered (l ++ [op]) id
      = match first_registered l id with
        | some v => some v
        | none => first_registered [op] id := by
  unfold first_registered
  rw [List.filterMap_append, head?_append_match]

/-- Claim C10: registering a controller under an already-present device id
leaves the registry unchanged, and over any sequence of register, unregister
and clear calls started from the empty registry, `get_controller` returns the
first controller registered for that id since the last unregister of that id
or clear. -/
theorem c10_registry {Ctrl : Type} :
    (∀ (r : List (String × Ctrl)) (id : String) (c : Ctrl),
        containsId r id = true → register_controller r id c = r) ∧
    (∀ (ops : List (RegOp Ctrl)) (id : String),
        getControllerList (run_ops ops) id = spec_get ops id) := by
  constructor
  · intro r id c h
    simp [register_controller, h]
  · intro ops id
    induction ops using List.reverseRecOn with
    | nil => rfl
    | append_singleton l op ih =>
      have hrun : run_ops (l ++ [op]) = apply_op (run_ops l) op := by
        simp [run_ops, List.foldl_append]
      rw [hrun]
      unfold spec_get
      rw [since_last_removal_append]
      cases op with
      | register i c =>
          have hrem : removes_id ((RegOp.register i c : RegOp Ctrl)) id = false := rfl
          rw [hrem, if_neg (by simp), first_registered_append]
          show getControllerList (register_controller (run_ops l) i c) id = _
          unfold register_controller
          by_cases hc : containsId (run_ops l) i
          · rw [if_pos hc]
            rw [containsId_isSome] at hc
            by_cases hiid : i = id
            · subst hiid
              cases hsl : getControllerList (run_ops l) i with
              | none => rw [hsl] at hc; simp at hc
              | some v =>
                  have h2 := ih
                  rw [hsl] at h2
                  unfold spec_get at h2
                  rw [← h2]
            · have hspec := ih
              unfold spec_get at hspec
              rw [hspec]
              cases first_registered (since_last_removal l id) id with
              | none => simp [first_registered, hiid]
              | some v => rfl
          · rw [if_neg hc, getControllerList_append]
            have hspec := ih
            unfold spec_get at hspec
            rw [hspec]
            cases first_registered (since_last_removal l id) id with
            | none =>
                by_cases hiid : i = id <;>
                  simp [getControllerList, first_registered, hiid]
            | some v => rfl
      | unregister i =>
          show getControllerList (unregister_controller (run_ops l) i) id = _
          rw [getControllerList_unregister]
          by_cases hiid : i = id
          · rw [if_pos hiid]
            have : removes_id ((RegOp.unregister i : RegOp Ctrl)) id = true := by
              simp [removes_id, hiid]
            rw [this, if_pos rfl]
            rfl
          · rw [if_neg hiid]
            have : removes_id ((RegOp.unregister i : RegOp Ctrl)) id = false := by
              simp [removes_id, hiid]
            rw [this, if_neg (by simp), first_registered_append]
            have hspec := ih
            unfold spec_get at hspec
            rw [hspec]
            cases first_registered (since_last_removal l id) id with
            | none => simp [first_registered]
            | some v => rfl
      | clear =>
          show getControllerList ((clear_controllers : List (String × Ctrl))) id = _
          rw [show removes_id ((RegOp.clear : RegOp Ctrl)) id = true from rfl, if_pos rfl]
          rfl

/-- Witness for `c10_registry`: re-registering id "a" discards the new
controller, and over a concrete call sequence the lookup is the first
controller registered since the last removal. -/
theorem c10_witness :
    register_controller [("a", (1 : Nat))] "a" 2 = [("a", 1)] ∧
    getControllerList
        (run_ops [RegOp.register "a" (1 : Nat), .register "a" 2, .unregister "a",
                  .register "a" 3, .register "a" 4]) "a"
      = some 3 := by
  exact ⟨((@c10_registry Nat)).1 [("a", 1)] "a" 2 (by decide),
         by
           rw [((@c10_registry Nat)).2
             [RegOp.register "a" 1, .register "a" 2, .unregister "a",
              .register "a" 3, .register "a" 4] "a"]
           decide⟩

end Lumagen
